import Mathlib

/-!
Shallow embedding of the two Python source files of the repository:
`script-template.py` (a CLI skeleton: input validation, data processing,
cleanup, exit codes) and `validation_functions.py` (the `ScriptValidator`
checklist object with its error tally).

Filesystem paths are modelled as lists of name components; a filesystem is a
boolean predicate on paths.  Machine state that the Python code reads (which
commands resolve, which modules import, disk space, network reachability) is
collected in explicit environment records.  Exceptions are modelled with
`Except`; the validator tally is threaded explicitly as a `Nat`.
-/

/-- Filesystem paths as lists of name components; `[]` is the root. -/
abbrev FPath := List String

/-- A filesystem states which paths exist.  Real filesystems satisfy
`ParentClosed`: a path can exist only when its parent does. -/
def ParentClosed (fs : FPath → Bool) : Prop :=
  ∀ (p : List String) (x : String), fs (p ++ [x]) = true → fs p = true

/-- Model of `Path.mkdir(parents=True, exist_ok=True)` applied to `dir`:
afterwards `dir` and every ancestor of `dir` exist. -/
def mkdirParents (fs : FPath → Bool) (dir : FPath) : FPath → Bool :=
  fun q => fs q || q.isPrefixOf dir

/-- Model of `validate_inputs` from `script-template.py`: raise `ValueError`
when the input path does not exist; create the output path's missing parent
directories; raise `ValueError` when the output path exists and `force` is not
set; otherwise return `True`.  The (possibly updated) filesystem is returned
alongside the outcome, since the `mkdir` side effect persists even when the
subsequent check raises. -/
def validate_inputs (fs : FPath → Bool) (input output : FPath) (force : Bool) :
    (FPath → Bool) × Except String Bool :=
  if fs input = false then
    (fs, Except.error "Input path does not exist")
  else
    let fs' := mkdirParents fs output.dropLast
    if fs' output && !force then
      (fs', Except.error "Output file exists and --force not specified")
    else
      (fs', Except.ok true)

/-- The `details` value computed by `process_data`: an item count for a
directory input, a byte size for a file input. -/
inductive Details where
  | dir (items : Nat)
  | file (size : Nat)
deriving DecidableEq, Repr

/-- The record `process_data` serializes to the output path; its fields are
exactly `processed_at`, `input_path`, `output_path`, `status`, `details`. -/
structure OutputData where
  processed_at : String
  input_path : String
  output_path : String
  status : String
  details : Details
deriving DecidableEq, Repr

/-- Facts about the input path that `process_data` reads from the machine. -/
structure PEnv where
  inputExists : Bool
  inputIsDir : Bool
  dirItems : Nat
  fileSize : Nat

/-- Exceptions reaching the skeleton's top level. -/
inductive Exc where
  | keyboardInterrupt
  | other
deriving DecidableEq, Repr

/-- Model of `process_data` from `script-template.py`: classify the input as
directory or file, build the output record with `status = "success"`, write it
to the output path.  A missing input makes the `stat` call raise, which the
function logs and re-raises. -/
def process_data (env : PEnv) (input output scriptName : String) :
    Except Exc OutputData :=
  if env.inputExists && env.inputIsDir then
    Except.ok
      { processed_at := scriptName
        input_path := input
        output_path := output
        status := "success"
        details := Details.dir env.dirItems }
  else if env.inputExists then
    Except.ok
      { processed_at := scriptName
        input_path := input
        output_path := output
        status := "success"
        details := Details.file env.fileSize }
  else
    Except.error Exc.other

/-- Observable steps of the skeleton's `main`. -/
inductive MEvent where
  | validated
  | processed
  | cleanup
deriving DecidableEq, Repr

/-- Exit code that `main`'s handlers assign to an exception: 130 for
`KeyboardInterrupt`, 1 for everything else. -/
def excCode : Exc → Nat
  | Exc.keyboardInterrupt => 130
  | Exc.other => 1

/-- Model of the `try/except/finally` body of `main` in `script-template.py`,
abstracted over the outcomes of the validation step and the processing step
(processing runs only when validation did not raise).  Returns the exit code
and the trace of observable steps; the `finally` block appends `cleanup` on
every path. -/
def mainRun (vres : Except Exc Bool) (pres : Except Exc OutputData) :
    Nat × List MEvent :=
  match vres with
  | Except.error e => (excCode e, [MEvent.cleanup])
  | Except.ok _ =>
    match pres with
    | Except.error e => (excCode e, [MEvent.validated, MEvent.cleanup])
    | Except.ok _ => (0, [MEvent.validated, MEvent.processed, MEvent.cleanup])

/-- Machine facts the `ScriptValidator` checks read. -/
structure VEnv where
  pyMajor : Nat
  pyMinor : Nat
  osName : String
  whichOk : String → Bool
  importable : String → Bool
  pathExists : String → Bool
  pathIsFile : String → Bool
  pathIsDir : String → Bool
  writeProbeOk : String → Bool
  connectOk : String → Nat → Nat → Bool
  diskAvail : String → Option ℚ
  cwd : String

/-- Python tuple comparison `min_version <= current` on `(major, minor)`. -/
def verLE (a b : Nat × Nat) : Bool :=
  Nat.blt a.1 b.1 || (a.1 == b.1 && Nat.ble a.2 b.2)

/-- Model of `ScriptValidator.validate_python_version`: pass when the current
interpreter version is at least the minimum, else increment the tally. -/
def validate_python_version (env : VEnv) (minV : Nat × Nat) (t : Nat) :
    Nat × Bool :=
  if verLE minV (env.pyMajor, env.pyMinor) then (t, true) else (t + 1, false)

/-- Model of `ScriptValidator.validate_command`: pass when the command or any
alternative resolves on the search path, else increment the tally. -/
def validate_command (env : VEnv) (command : String) (alternatives : List String)
    (t : Nat) : Nat × Bool :=
  if env.whichOk command then (t, true)
  else if alternatives.any env.whichOk then (t, true)
  else (t + 1, false)

/-- Model of `ScriptValidator.validate_path`: existence, kind, and (optional)
writability probe; each failure increments the tally. -/
def validate_path (env : VEnv) (path : String) (path_type : String)
    (check_writable : Bool) (t : Nat) : Nat × Bool :=
  if !env.pathExists path then (t + 1, false)
  else if path_type == "file" && !env.pathIsFile path then (t + 1, false)
  else if path_type == "directory" && !env.pathIsDir path then (t + 1, false)
  else if check_writable && !env.writeProbeOk path then (t + 1, false)
  else (t, true)

/-- Model of `ScriptValidator.validate_network`: a failed connection only logs
a warning; the tally is never touched. -/
def validate_network (env : VEnv) (host : String) (port timeout : Nat)
    (t : Nat) : Nat × Bool :=
  (t, env.connectOk host port timeout)

/-- The loop body of `ScriptValidator.validate_imports`: walk the module list,
incrementing the tally and collecting the name for each failed import. -/
def importsGo (env : VEnv) : List String → Nat → List String →
    Nat × List String
  | [], t, missing => (t, missing)
  | m :: ms, t, missing =>
    if env.importable m then importsGo env ms t missing
    else importsGo env ms (t + 1) (missing ++ [m])

/-- Model of `ScriptValidator.validate_imports`: run the import loop, then
return `False` when any module was missing, `True` otherwise. -/
def validate_imports (env : VEnv) (modules : List String) (t : Nat) :
    Nat × Bool :=
  let r := importsGo env modules t []
  (r.1, r.2.isEmpty)

/-- Model of `ScriptValidator.validate_os`: pass when the current OS name is
in the supported list, else increment the tally. -/
def validate_os (env : VEnv) (supported_os : List String) (t : Nat) :
    Nat × Bool :=
  if supported_os.contains env.osName then (t, true) else (t + 1, false)

/-- Model of `ScriptValidator.validate_disk_space`: when the platform call is
unsupported (`OSError`/`AttributeError`, modelled as `none`) warn and pass;
otherwise pass iff the available gigabytes reach the minimum, incrementing the
tally when they do not. -/
def validate_disk_space (env : VEnv) (path : String) (min_gb : ℚ) (t : Nat) :
    Nat × Bool :=
  match env.diskAvail path with
  | none => (t, true)
  | some avail => if min_gb ≤ avail then (t, true) else (t + 1, false)

/-- Observable steps of `ScriptValidator.validate_system`. -/
inductive VEvent where
  | sysInfo
  | pyVersion
  | osCheck
  | commandCheck (c : String)
  | importsCheck
  | pathCheck
  | networkCheck
  | diskCheck
deriving DecidableEq, Repr

/-- Model of `ScriptValidator.validate_system`: log the system-info snapshot,
then run the version check, the OS check (only when a supported-OS list is
given and non-empty), one command check per required command, the module check
(only when a module list is given and non-empty), the working-directory path
check, the network check, and the disk-space check; finally return `True` iff
the accumulated tally is zero.  `None` arguments and empty lists behave alike
(Python truthiness), so optional list arguments are modelled as plain lists
with `[]` for absent.  The returned trace records the executed steps in
order. -/
def validate_system (env : VEnv) (minV : Nat × Nat)
    (required_commands required_modules supported_os : List String)
    (t : Nat) : Nat × Bool × List VEvent :=
  let t1 := (validate_python_version env minV t).1
  let t2 := if supported_os.isEmpty then t1 else (validate_os env supported_os t1).1
  let t3 := required_commands.foldl (fun acc c => (validate_command env c [] acc).1) t2
  let t4 := if required_modules.isEmpty then t3 else
    (validate_imports env required_modules t3).1
  let t5 := (validate_path env env.cwd "directory" true t4).1
  let t6 := (validate_network env "github.com" 443 5 t5).1
  let t7 := (validate_disk_space env env.cwd (1 / 10) t6).1
  let evs := [VEvent.sysInfo, VEvent.pyVersion]
    ++ (if supported_os.isEmpty then [] else [VEvent.osCheck])
    ++ required_commands.map VEvent.commandCheck
    ++ (if required_modules.isEmpty then [] else [VEvent.importsCheck])
    ++ [VEvent.pathCheck, VEvent.networkCheck, VEvent.diskCheck]
  (t7, decide (t7 = 0), evs)

/-- A concrete machine on which every probe succeeds. -/
def env0 : VEnv where
  pyMajor := 3
  pyMinor := 11
  osName := "Linux"
  whichOk := fun _ => true
  importable := fun _ => true
  pathExists := fun _ => true
  pathIsFile := fun _ => false
  pathIsDir := fun _ => true
  writeProbeOk := fun _ => true
  connectOk := fun _ _ _ => true
  diskAvail := fun _ => some 100
  cwd := "/work"

/-- A concrete machine on which every probe fails and 0 GB are available. -/
def env1 : VEnv where
  pyMajor := 2
  pyMinor := 6
  osName := "Plan9"
  whichOk := fun _ => false
  importable := fun _ => false
  pathExists := fun _ => false
  pathIsFile := fun _ => false
  pathIsDir := fun _ => false
  writeProbeOk := fun _ => false
  connectOk := fun _ _ _ => false
  diskAvail := fun _ => some 0
  cwd := "/work"

/-!
Helper lemmas about the filesystem model and the import loop, shared by the
claim theorems below.
-/

/-- On a parent-closed filesystem, every prefix of an existing path exists. -/
theorem parentClosed_prefix (fs : FPath → Bool) (h : ParentClosed fs) :
    ∀ (p q : FPath), fs p = true → q <+: p → fs q = true := by
  intro p
  induction p using List.reverseRecOn with
  | nil =>
    intro q hp hq
    rw [List.prefix_nil.mp hq]
    exact hp
  | append_singleton ps x ih =>
    intro q hp hq
    by_cases hlen : q.length ≤ ps.length
    · exact ih q (h ps x hp)
        (List.prefix_of_prefix_length_le hq (List.prefix_append ps [x]) hlen)
    · have hle := hq.length_le
      have hq' : q = ps ++ [x] := hq.eq_of_length (by simp at hle ⊢; omega)
      rw [hq']
      exact hp

/-- A non-empty path is never a prefix of its own parent. -/
theorem isPrefixOf_dropLast_self_eq_false (l : FPath) (h : l ≠ []) :
    l.isPrefixOf l.dropLast = false := by
  cases hp : l.isPrefixOf l.dropLast with
  | false => rfl
  | true =>
    have hpre := List.isPrefixOf_iff_prefix.mp hp
    have h1 := hpre.length_le
    rw [List.length_dropLast] at h1
    have h2 : 0 < l.length := List.length_pos.mpr h
    omega

/-- Creating the ancestors of an already-existing directory changes nothing on
a parent-closed filesystem. -/
theorem mkdirParents_no_change (fs : FPath → Bool) (h : ParentClosed fs)
    (dir : FPath) (hd : fs dir = true) (q : FPath) :
    mkdirParents fs dir q = fs q := by
  unfold mkdirParents
  cases hq : q.isPrefixOf dir with
  | false => simp
  | true =>
    have hfq : fs q = true :=
      parentClosed_prefix fs h dir q hd (List.isPrefixOf_iff_prefix.mp hq)
    simp [hfq]

/-- The import loop adds one tally point per non-importable module and collects
exactly the non-importable names, in order, after the accumulator. -/
theorem importsGo_spec (env : VEnv) :
    ∀ (ms : List String) (t : Nat) (missing : List String),
      importsGo env ms t missing
        = (t + ms.countP (fun m => !env.importable m),
           missing ++ ms.filter (fun m => !env.importable m)) := by
  intro ms
  induction ms with
  | nil => intro t missing; simp [importsGo]
  | cons m ms ih =>
    intro t missing
    by_cases h : env.importable m
    · simp [importsGo, h, ih, List.countP_cons, List.filter_cons]
    · have hb : env.importable m = false := by
        cases hm : env.importable m
        · rfl
        · exact absurd hm h
      refine Prod.ext ?_ ?_
      · simp [importsGo, hb, ih, List.countP_cons]
        omega
      · simp [importsGo, hb, ih, List.filter_cons]

/-- C1: `validate_inputs` raises `ValueError` when the input path does not
exist (filesystem untouched); when the output path exists and `force` is
unset it raises, and on a parent-closed filesystem the filesystem is pointwise
unchanged at that point, so the rejection precedes any output-side filesystem
change; only otherwise does it return `true`, having created exactly the
missing parent directories of the output path. -/
theorem validate_inputs_spec (fs : FPath → Bool) (input output : FPath)
    (force : Bool) (hclosed : ParentClosed fs) (hout : output ≠ []) :
    (fs input = false →
      validate_inputs fs input output force
        = (fs, Except.error "Input path does not exist"))
    ∧ (fs input = true → fs output = true → force = false →
        (validate_inputs fs input output force).2
            = Except.error "Output file exists and --force not specified"
          ∧ ∀ q, (validate_inputs fs input output force).1 q = fs q)
    ∧ (fs input = true → (fs output = false ∨ force = true) →
        (validate_inputs fs input output force).2 = Except.ok true
          ∧ (∀ q, q.isPrefixOf output.dropLast = true →
              (validate_inputs fs input output force).1 q = true)
          ∧ (∀ q, (validate_inputs fs input output force).1 q
              = (fs q || q.isPrefixOf output.dropLast))) := by
  refine ⟨?_, ?_, ?_⟩
  · intro h
    simp [validate_inputs, h]
  · intro h1 h2 h3
    have hdrop : fs output.dropLast = true :=
      parentClosed_prefix fs hclosed output output.dropLast h2
        (List.dropLast_prefix output)
    have hfs' : ∀ q, mkdirParents fs output.dropLast q = fs q :=
      mkdirParents_no_change fs hclosed output.dropLast hdrop
    have hcond : mkdirParents fs output.dropLast output = true := by
      rw [hfs' output]; exact h2
    simp only [validate_inputs, h1, h3, hcond]
    simp [hfs']
  · intro h1 h2
    have houtp : output.isPrefixOf output.dropLast = false :=
      isPrefixOf_dropLast_self_eq_false output hout
    have hfso : mkdirParents fs output.dropLast output = fs output := by
      unfold mkdirParents
      rw [houtp]
      simp
    have hcond : (mkdirParents fs output.dropLast output && !force) = false := by
      rw [hfso]
      rcases h2 with h2 | h2 <;> simp [h2]
    simp only [validate_inputs, h1, hcond]
    refine ⟨by simp, ?_, ?_⟩
    · intro q hq
      simp [mkdirParents, hq]
    · intro q
      rfl

/-- C1 witness: on the all-paths-exist (parent-closed) filesystem with `force`
unset, the output-exists rejection fires and the filesystem is unchanged. -/
theorem validate_inputs_spec_witness :
    (validate_inputs (fun _ => true) ["a"] ["b"] false).2
        = Except.error "Output file exists and --force not specified"
      ∧ (validate_inputs (fun _ => true) ["a"] ["b"] false).1 ["x"] = true := by
  have h := validate_inputs_spec (fun _ => true) ["a"] ["b"] false
    (fun _ _ _ => rfl) (by simp)
  have h2 := h.2.1 rfl rfl rfl
  exact ⟨h2.1, (h2.2 ["x"]).trans rfl⟩

/-- C3: `validate_network` never touches the tally, for any host, port,
timeout and prior tally, and it returns exactly the connection outcome — in
particular `false`, with the tally unchanged, when the connection fails. -/
theorem validate_network_tally_frame (env : VEnv) (host : String)
    (port timeout t : Nat) :
    (validate_network env host port timeout t).1 = t
      ∧ (validate_network env host port timeout t).2
          = env.connectOk host port timeout :=
  ⟨rfl, rfl⟩

/-- C5: `validate_command` passes iff the command or one of its alternatives
resolves on the search path; a pass leaves the tally unchanged, and a missing
command with no alternatives returns `false` with the tally incremented by
exactly one. -/
theorem validate_command_spec (env : VEnv) (command : String)
    (alternatives : List String) (t : Nat) :
    ((validate_command env command alternatives t).2 = true ↔
        (env.whichOk command = true ∨ ∃ a ∈ alternatives, env.whichOk a = true))
      ∧ ((validate_command env command alternatives t).2 = true →
          (validate_command env command alternatives t).1 = t)
      ∧ (env.whichOk command = false → alternatives = [] →
          validate_command env command alternatives t = (t + 1, false)) := by
  cases h1 : env.whichOk command with
  | true =>
    refine ⟨by simp [validate_command, h1], by simp [validate_command, h1], ?_⟩
    intro hfalse
    exact absurd hfalse (by simp)
  | false =>
    cases h2 : alternatives.any env.whichOk with
    | true =>
      refine ⟨?_, by simp [validate_command, h1, h2], ?_⟩
      · have := List.any_eq_true.mp h2
        simp [validate_command, h1, h2]
        exact this
      · intro _ hnil
        rw [hnil] at h2
        exact absurd h2 (by simp)
    | false =>
      have hno := List.any_eq_false.mp h2
      refine ⟨?_, ?_, ?_⟩
      · simp [validate_command, h1, h2]
        intro a ha
        simpa using hno a ha
      · simp [validate_command, h1, h2]
      · intro _ _
        simp [validate_command, h1, h2]

/-- C5 witness: a nonexistent command with no alternatives fails and bumps the
tally from 7 to 8. -/
theorem validate_command_spec_witness :
    validate_command env1 "git" [] 7 = (8, false) :=
  (validate_command_spec env1 "git" [] 7).2.2 rfl rfl

/-- C6: `validate_imports` returns `true` iff every listed module is
importable, and the tally grows by exactly the number of non-importable
names. -/
theorem validate_imports_spec (env : VEnv) (modules : List String) (t : Nat) :
    ((validate_imports env modules t).2 = true ↔
        ∀ m ∈ modules, env.importable m = true)
      ∧ (validate_imports env modules t).1
          = t + modules.countP (fun m => !env.importable m) := by
  unfold validate_imports
  rw [importsGo_spec]
  constructor
  · simp [List.isEmpty_iff, List.filter_eq_nil_iff]
  · rfl

/-- C2 (amended): `validate_system` logs the system-info snapshot first; it
always runs the version, working-directory path, network and disk-space
checks, runs the OS check only when a non-empty supported-OS list is given,
one command check per required command, and the module check only when a
non-empty module list is given — in that order — and returns `true` iff the
tally is zero when the sequence finishes, whatever tally the validator started
with. -/
theorem validate_system_spec (env : VEnv) (minV : Nat × Nat)
    (cmds mods oss : List String) (t : Nat) :
    ((validate_system env minV cmds mods oss t).2.2).head? = some VEvent.sysInfo
      ∧ VEvent.pyVersion ∈ (validate_system env minV cmds mods oss t).2.2
      ∧ (oss ≠ [] →
          VEvent.osCheck ∈ (validate_system env minV cmds mods oss t).2.2)
      ∧ (∀ c ∈ cmds,
          VEvent.commandCheck c ∈ (validate_system env minV cmds mods oss t).2.2)
      ∧ (mods ≠ [] →
          VEvent.importsCheck ∈ (validate_system env minV cmds mods oss t).2.2)
      ∧ VEvent.pathCheck ∈ (validate_system env minV cmds mods oss t).2.2
      ∧ VEvent.networkCheck ∈ (validate_system env minV cmds mods oss t).2.2
      ∧ VEvent.diskCheck ∈ (validate_system env minV cmds mods oss t).2.2
      ∧ ((validate_system env minV cmds mods oss t).2.1 = true ↔
          (validate_system env minV cmds mods oss t).1 = 0) := by
  refine ⟨rfl, ?_, ?_, ?_, ?_, ?_, ?_, ?_, ?_⟩
  · simp [validate_system]
  · intro h
    simp [validate_system, List.isEmpty_iff, h]
  · intro c hc
    simp [validate_system]
    exact hc
  · intro h
    simp [validate_system, List.isEmpty_iff, h]
  · simp [validate_system]
  · simp [validate_system]
  · simp [validate_system]
  · simp [validate_system]

/-- C2 witness: with every list argument non-empty each kind of check appears
in the trace, the snapshot is first, and on the all-pass machine with a fresh
tally the run reports success. -/
theorem validate_system_spec_witness :
    VEvent.osCheck ∈ (validate_system env0 (3, 7) ["git"] ["os"] ["Linux"] 0).2.2
      ∧ VEvent.commandCheck "git"
          ∈ (validate_system env0 (3, 7) ["git"] ["os"] ["Linux"] 0).2.2
      ∧ VEvent.importsCheck
          ∈ (validate_system env0 (3, 7) ["git"] ["os"] ["Linux"] 0).2.2 := by
  have h := validate_system_spec env0 (3, 7) ["git"] ["os"] ["Linux"] 0
  have h1 := h.2.2.1 (by simp)
  have h2 := h.2.2.2.1 "git" (by simp)
  have h3 := h.2.2.2.2.1 (by simp)
  exact ⟨h1, h2, h3⟩

/-- C2 counterexample: with the default (absent) optional arguments the OS
check is not part of the sequence `validate_system` runs, contradicting the
claim that every combination of arguments composes all of the checks. -/
theorem validate_system_osCheck_counterexample :
    (validate_system env0 (3, 7) [] [] [] 0).2.2
        = [VEvent.sysInfo, VEvent.pyVersion, VEvent.pathCheck,
           VEvent.networkCheck, VEvent.diskCheck]
      ∧ VEvent.osCheck ∉ (validate_system env0 (3, 7) [] [] [] 0).2.2 := by
  have h : (validate_system env0 (3, 7) [] [] [] 0).2.2
      = [VEvent.sysInfo, VEvent.pyVersion, VEvent.pathCheck,
         VEvent.networkCheck, VEvent.diskCheck] := rfl
  refine ⟨h, ?_⟩
  rw [h]
  decide

/-- C4: the skeleton's entry point returns 0 when validation and processing
both succeed, 130 when either step raises `KeyboardInterrupt`, and 1 when
either step raises any other exception. -/
theorem mainRun_exit_codes (vres : Except Exc Bool)
    (pres : Except Exc OutputData) :
    ((∃ b, vres = Except.ok b) → (∃ d, pres = Except.ok d) →
        (mainRun vres pres).1 = 0)
      ∧ (vres = Except.error Exc.keyboardInterrupt → (mainRun vres pres).1 = 130)
      ∧ ((∃ b, vres = Except.ok b) →
          pres = Except.error Exc.keyboardInterrupt → (mainRun vres pres).1 = 130)
      ∧ (vres = Except.error Exc.other → (mainRun vres pres).1 = 1)
      ∧ ((∃ b, vres = Except.ok b) → pres = Except.error Exc.other →
          (mainRun vres pres).1 = 1) := by
  cases vres with
  | error e => cases e <;> cases pres <;> simp [mainRun, excCode]
  | ok b =>
    cases pres with
    | error e => cases e <;> simp [mainRun, excCode]
    | ok d => simp [mainRun]

/-- C4 witness: a `KeyboardInterrupt` raised during processing (after a
successful validation) exits with code 130. -/
theorem mainRun_exit_codes_witness :
    (mainRun (Except.ok true) (Except.error Exc.keyboardInterrupt)).1 = 130 :=
  (mainRun_exit_codes (Except.ok true)
      (Except.error Exc.keyboardInterrupt)).2.2.1 ⟨true, rfl⟩ rfl

/-- C7: on an existing input, `process_data` produces the output record (whose
fields are exactly those of `OutputData`) with `status = "success"`, the two
path fields echoed, and `details` holding the item count for a directory input
and the byte size for a file input. -/
theorem process_data_spec (env : PEnv) (input output scriptName : String)
    (h : env.inputExists = true) :
    ∃ d, process_data env input output scriptName = Except.ok d
      ∧ d.status = "success"
      ∧ d.input_path = input
      ∧ d.output_path = output
      ∧ d.processed_at = scriptName
      ∧ (env.inputIsDir = true → d.details = Details.dir env.dirItems)
      ∧ (env.inputIsDir = false → d.details = Details.file env.fileSize) := by
  cases hdir : env.inputIsDir with
  | true =>
    have hok : process_data env input output scriptName
        = Except.ok
            { processed_at := scriptName
              input_path := input
              output_path := output
              status := "success"
              details := Details.dir env.dirItems } := by
      simp [process_data, h, hdir]
    exact ⟨_, hok, rfl, rfl, rfl, rfl, fun _ => rfl,
      fun hfalse => absurd hfalse (by simp)⟩
  | false =>
    have hok : process_data env input output scriptName
        = Except.ok
            { processed_at := scriptName
              input_path := input
              output_path := output
              status := "success"
              details := Details.file env.fileSize } := by
      simp [process_data, h, hdir]
    exact ⟨_, hok, rfl, rfl, rfl, rfl,
      fun htrue => absurd htrue (by simp), fun _ => rfl⟩

/-- C7 witness: a 42-byte file input yields a success record carrying the byte
size. -/
theorem process_data_spec_witness :
    ∃ d, process_data ⟨true, false, 0, 42⟩ "in.txt" "out.json"
          "script-template.py" = Except.ok d
        ∧ d.status = "success" ∧ d.details = Details.file 42 := by
  obtain ⟨d, hok, hst, -, -, -, -, hfile⟩ :=
    process_data_spec ⟨true, false, 0, 42⟩ "in.txt" "out.json"
      "script-template.py" rfl
  exact ⟨d, hok, hst, hfile rfl⟩

/-- C8: `validate_disk_space` passes with the tally unchanged when the
platform call is unsupported or when the available space reaches the minimum,
and fails with the tally incremented by one when it does not. -/
theorem validate_disk_space_spec (env : VEnv) (path : String) (min_gb : ℚ)
    (t : Nat) :
    (env.diskAvail path = none →
        validate_disk_space env path min_gb t = (t, true))
      ∧ (∀ avail, env.diskAvail path = some avail →
          (min_gb ≤ avail →
              validate_disk_space env path min_gb t = (t, true))
            ∧ (avail < min_gb →
                validate_disk_space env path min_gb t = (t + 1, false))) := by
  constructor
  · intro h
    simp [validate_disk_space, h]
  · intro avail h
    constructor
    · intro hle
      simp [validate_disk_space, h, hle]
    · intro hlt
      simp [validate_disk_space, h, not_le.mpr hlt]

/-- C8 witness: 0 GB available against a 1 GB minimum fails and bumps the
tally from 3 to 4. -/
theorem validate_disk_space_spec_witness :
    validate_disk_space env1 "/data" 1 3 = (4, false) :=
  ((validate_disk_space_spec env1 "/data" 1 3).2 0 rfl).2 (by norm_num)

/-- C9: the cleanup step runs exactly once on every exit path of the entry
point, and it is the last observable step — `mainRun` never returns without
cleanup having run. -/
theorem mainRun_cleanup_always (vres : Except Exc Bool)
    (pres : Except Exc OutputData) :
    (mainRun vres pres).2.count MEvent.cleanup = 1
      ∧ (mainRun vres pres).2.getLast? = some MEvent.cleanup := by
  cases vres with
  | error e => exact ⟨rfl, rfl⟩
  | ok b =>
    cases pres with
    | error e => exact ⟨rfl, rfl⟩
    | ok d => exact ⟨rfl, rfl⟩

/-- C10: every check method of the validator leaves the tally no smaller than
it found it, and a check that returns `true` leaves it exactly unchanged. -/
theorem validator_tally_monotone (env : VEnv) (t : Nat) :
    (∀ minV, t ≤ (validate_python_version env minV t).1
        ∧ ((validate_python_version env minV t).2 = true →
            (validate_python_version env minV t).1 = t))
      ∧ (∀ c alts, t ≤ (validate_command env c alts t).1
          ∧ ((validate_command env c alts t).2 = true →
              (validate_command env c alts t).1 = t))
      ∧ (∀ p pt w, t ≤ (validate_path env p pt w t).1
          ∧ ((validate_path env p pt w t).2 = true →
              (validate_path env p pt w t).1 = t))
      ∧ (∀ h p tmo, t ≤ (validate_network env h p tmo t).1
          ∧ ((validate_network env h p tmo t).2 = true →
              (validate_network env h p tmo t).1 = t))
      ∧ (∀ mods, t ≤ (validate_imports env mods t).1
          ∧ ((validate_imports env mods t).2 = true →
              (validate_imports env mods t).1 = t))
      ∧ (∀ oss, t ≤ (validate_os env oss t).1
          ∧ ((validate_os env oss t).2 = true → (validate_os env oss t).1 = t))
      ∧ (∀ p g, t ≤ (validate_disk_space env p g t).1
          ∧ ((validate_disk_space env p g t).2 = true →
              (validate_disk_space env p g t).1 = t)) := by
  refine ⟨?_, ?_, ?_, ?_, ?_, ?_, ?_⟩
  · intro minV
    unfold validate_python_version
    split <;> simp
  · intro c alts
    unfold validate_command
    split
    · simp
    · split <;> simp
  · intro p pt w
    unfold validate_path
    split_ifs <;> simp
  · intro h p tmo
    exact ⟨le_refl t, fun _ => rfl⟩
  · intro mods
    have h := validate_imports_spec env mods t
    refine ⟨?_, ?_⟩
    · rw [h.2]
      exact Nat.le_add_right t _
    · intro htrue
      rw [h.2]
      have hall := h.1.mp htrue
      have hz : mods.countP (fun m => !env.importable m) = 0 := by
        rw [List.countP_eq_length_filter]
        have : mods.filter (fun m => !env.importable m) = [] :=
          List.filter_eq_nil_iff.mpr (by intro a ha; simp [hall a ha])
        rw [this]
        rfl
      omega
  · intro oss
    unfold validate_os
    split <;> simp
  · intro p g
    cases hda : env.diskAvail p with
    | none =>
      have hv : validate_disk_space env p g t = (t, true) := by
        simp [validate_disk_space, hda]
      rw [hv]
      exact ⟨le_refl t, fun _ => rfl⟩
    | some avail =>
      by_cases hle : g ≤ avail
      · have hv : validate_disk_space env p g t = (t, true) := by
          simp [validate_disk_space, hda, hle]
        rw [hv]
        exact ⟨le_refl t, fun _ => rfl⟩
      · have hv : validate_disk_space env p g t = (t + 1, false) := by
          simp [validate_disk_space, hda, hle]
        rw [hv]
        exact ⟨Nat.le_succ t, fun hc => absurd hc (by simp)⟩

/-- C10 witness: a passing version check on the all-pass machine leaves a
tally of 5 at 5. -/
theorem validator_tally_monotone_witness :
    (validate_python_version env0 (3, 7) 5).1 = 5 :=
  ((validator_tally_monotone env0 5).1 (3, 7)).2 rfl
